import Mathlib

/-!
Verification of the string-joining component in
`test cases/cmake/8 custom command/subprojects/cmMod/cmMod.cpp`.

The translation unit defines a single class `cmModClass` with one field
`str`, a constructor that appends the literal `" World"` to its argument,
a `const` accessor `getStr`, and a `const` method `getOther` that
concatenates `getStr()`, the literal `"  --  "`, and the result of the
externally linked function `getStrCpy()`.  The unit also carries a
preprocessor guard `#ifndef FOO / #error FOO not declared / #endif`.

The external function `getStrCpy` lives in a second compiled unit and is
modelled as an opaque string parameter.  The `const` methods are also
given as explicit state transformers (result paired with post-state) so
that frame and invariant properties can be stated.
-/

/-- The state of a `cmModClass` object: its single `std::string` field
`str`. -/
structure cmModClass where
  str : String
deriving DecidableEq, Repr

/-- `cmModClass::cmModClass(string foo) { str = foo + " World"; }` -/
def cmModClass.construct (foo : String) : cmModClass :=
  { str := foo ++ " World" }

/-- `string cmModClass::getStr() const { return str; }` -/
def cmModClass.getStr (self : cmModClass) : String :=
  self.str

/-- `string cmModClass::getOther() const { return getStr() + "  --  " + getStrCpy(); }`
with the externally linked `getStrCpy()` passed as the opaque value
`getStrCpy`.  C++ `+` on strings is left-associative, hence the
parenthesisation. -/
def cmModClass.getOther (self : cmModClass) (getStrCpy : String) : String :=
  (self.getStr ++ "  --  ") ++ getStrCpy

/-- `getStr` as a state transformer: the returned string paired with the
post-call object state.  The method is `const`, so the state is returned
unchanged. -/
def cmModClass.getStrOp (self : cmModClass) : String × cmModClass :=
  (self.getStr, self)

/-- `getOther` as a state transformer, with the external string passed as
a parameter.  The method is `const`, so the state is returned
unchanged. -/
def cmModClass.getOtherOp (self : cmModClass) (getStrCpy : String) :
    String × cmModClass :=
  (self.getOther getStrCpy, self)

/-- One observable call on a `cmModClass` object: either `getStr()` or
`getOther()` (the latter tagged with the string the external
`getStrCpy()` returns during that call). -/
inductive Op where
  | callGetStr : Op
  | callGetOther : String → Op
deriving DecidableEq, Repr

/-- Execute one call on the object, yielding the result and the
post-call state. -/
def stepOp (m : cmModClass) : Op → String × cmModClass
  | Op.callGetStr => m.getStrOp
  | Op.callGetOther r => m.getOtherOp r

/-- Execute a sequence of calls, threading the object state. -/
def runOps (m : cmModClass) : List Op → cmModClass
  | [] => m
  | o :: os => runOps (stepOp m o).2 os

/-- The preprocessor guard
`#ifndef FOO / #error FOO not declared / #endif` at the top of the
translation unit: given whether the flag `FOO` is defined, compilation
either proceeds or aborts with the diagnostic. -/
def fooGuard (fooDefined : Bool) : Except String Unit :=
  if fooDefined then Except.ok () else Except.error "FOO not declared"

theorem runOps_eq_self (m : cmModClass) (ops : List Op) :
    runOps m ops = m := by
  induction ops generalizing m with
  | nil => rfl
  | cons o os ih =>
    cases o with
    | callGetStr => exact ih m
    | callGetOther r => exact ih m

/-- C1: for every input string `s`, constructing a `cmModClass` from `s`
and calling `getStr` returns `s ++ " World"`; in particular the empty
string yields `" World"` and `"Hello"` yields `"Hello World"`. -/
theorem C1_construct_getStr (s : String) :
    (cmModClass.construct s).getStr = s ++ " World" ∧
    (cmModClass.construct "").getStr = " World" ∧
    (cmModClass.construct "Hello").getStr = "Hello World" :=
  ⟨rfl, by decide, by decide⟩

/-- C2: for every object state and every string `r` returned by the
external `getStrCpy()`, `getOther` returns exactly
`getStr() ++ "  --  " ++ r`. -/
theorem C2_getOther_eq (m : cmModClass) (r : String) :
    m.getOther r = (m.getStr ++ "  --  ") ++ r :=
  rfl

/-- C3: whatever the external provider returns, the result of `getOther`
starts with `getStr() ++ "  --  "`: there is a rest (namely the
provider output itself) such that the result is that head followed by
the rest. -/
theorem C3_getOther_starts_with_value (m : cmModClass) (r : String) :
    ∃ rest : String, m.getOther r = (m.getStr ++ "  --  ") ++ rest ∧ rest = r :=
  ⟨r, rfl, rfl⟩

/-- C4: state invariant.  After constructing from `s`, the stored `str`
equals `s ++ " World"`, and running any sequence of `getStr` and
`getOther` calls leaves the state exactly as it was right after
construction. -/
theorem C4_state_invariant (s : String) (ops : List Op) :
    runOps (cmModClass.construct s) ops = cmModClass.construct s ∧
    (cmModClass.construct s).str = s ++ " World" :=
  ⟨runOps_eq_self (cmModClass.construct s) ops, rfl⟩

/-- C5: idempotence of the read operations.  Calling `getStr` twice in a
row yields the same string both times, calling `getOther` twice with the
same external output yields the same string both times, and neither call
changes the object state. -/
theorem C5_reads_idempotent (m : cmModClass) (r : String) :
    (m.getStrOp).1 = ((m.getStrOp).2.getStrOp).1 ∧
    (m.getOtherOp r).1 = ((m.getOtherOp r).2.getOtherOp r).1 ∧
    (m.getStrOp).2 = m ∧
    (m.getOtherOp r).2 = m :=
  ⟨rfl, rfl, rfl, rfl⟩

/-- C6: the preprocessor guard.  If `FOO` is not defined, compilation
aborts with the diagnostic `FOO not declared`; if `FOO` is defined, the
guard is inert and compilation proceeds. -/
theorem C6_foo_guard :
    fooGuard false = Except.error "FOO not declared" ∧
    fooGuard true = Except.ok () :=
  ⟨rfl, rfl⟩

/-- C7: construction is total.  For every input string, including the
empty string, `construct` produces an object (there is no error path),
and its stored value is the input with `" World"` appended. -/
theorem C7_construct_total (s : String) :
    ∃ m : cmModClass, cmModClass.construct s = m ∧ m.str = s ++ " World" :=
  ⟨cmModClass.construct s, rfl, rfl⟩

/-- C8: `getStr` is a pure read-only accessor.  As a state transformer
it returns the stored `str` field unchanged and leaves the whole object
state intact. -/
theorem C8_getStr_pure (m : cmModClass) :
    (m.getStrOp).1 = m.str ∧ (m.getStrOp).2 = m :=
  ⟨rfl, rfl⟩

/-- C9: the construction mapping is injective.  Two constructed objects
report equal `getStr` values exactly when the construction inputs were
equal. -/
theorem C9_construct_injective (s t : String) :
    (cmModClass.construct s).getStr = (cmModClass.construct t).getStr ↔ s = t := by
  constructor
  · intro h
    have hd : s.data ++ (" World").data = t.data ++ (" World").data := by
      have h2 : s ++ " World" = t ++ " World" := h
      calc s.data ++ (" World").data
          = (s ++ " World").data := (String.data_append s " World").symm
        _ = (t ++ " World").data := by rw [h2]
        _ = t.data ++ (" World").data := String.data_append t " World"
    exact String.ext (List.append_cancel_right hd)
  · intro h
    rw [h]

/-- C10: determinism of `getOther`.  The result is a function of exactly
the construction input and the external provider output: equal inputs
and equal provider outputs give equal results. -/
theorem C10_getOther_deterministic (s t r₁ r₂ : String)
    (hs : s = t) (hr : r₁ = r₂) :
    (cmModClass.construct s).getOther r₁ = (cmModClass.construct t).getOther r₂ := by
  rw [hs, hr]

/-- Witness for C10 at concrete inputs. -/
theorem C10_getOther_deterministic_witness :
    ("Hello" : String) = "Hello" ∧ ("other" : String) = "other" ∧
    (cmModClass.construct "Hello").getOther "other"
      = (cmModClass.construct "Hello").getOther "other" :=
  ⟨rfl, rfl, C10_getOther_deterministic "Hello" "Hello" "other" "other" rfl rfl⟩
